import Mathlib

/-!
Verification of the reliable-queue substrate shared by the two services
`nfl_ingestor/main.py` and `nfl_processor/main.py`.  The Python functions
are shallowly embedded as executable Lean definitions; machine effects
(broker calls, logging, sleeping) are recorded as explicit action traces,
and fallible library calls are parameters giving their outcome.
-/

namespace NflPipeline

/-! ## Connection manager (`create_rabbitmq_connection`, both files, lines 45-81)

The loop keeps local state `retry_delay` (initialised to 1, line 54) and on
every failed attempt sleeps `retry_delay` seconds and then updates
`retry_delay = min(retry_delay * 2, max_delay)` (line 81) with
`max_delay = 60` (line 55).  A connection attempt either yields a
connection or raises; the outcome of attempt number `i` is supplied by an
oracle `attempt : Nat -> Option Conn`.  The `while True` loop is embedded
as fuel-indexed iteration of one loop body. -/

/-- Connections are abstract; only identity matters to the claims. -/
abbrev Conn := Nat

/-- Initial value of `retry_delay` (line 54 of both files). -/
def initial_retry_delay : Nat := 1

/-- Value of `max_delay` (line 55 of both files). -/
def max_delay : Nat := 60

/-- The update on line 81: `retry_delay = min(retry_delay * 2, max_delay)`. -/
def next_retry_delay (d : Nat) : Nat := min (d * 2) max_delay

/-- The value of `retry_delay` after `n` failed attempts of one call. -/
def retry_delay_after : Nat → Nat
  | 0 => initial_retry_delay
  | n + 1 => next_retry_delay (retry_delay_after n)

/-- State of one call of `create_rabbitmq_connection`: the index of the next
attempt, the current `retry_delay`, the slept delays in order, the number of
connection errors logged, and the returned connection once one succeeded. -/
structure ConnState where
  attemptIdx : Nat
  retry_delay : Nat
  sleeps : List Nat
  errorsLogged : Nat
  result : Option Conn
deriving Repr, DecidableEq

/-- State on entry to the `while True` loop (lines 54-55). -/
def connInit : ConnState :=
  { attemptIdx := 0, retry_delay := initial_retry_delay, sleeps := [],
    errorsLogged := 0, result := none }

/-- One iteration of the `while True` loop (lines 57-81): try to connect;
on success return the connection (line 72); on any exception log the error,
sleep `retry_delay` seconds and double it up to the cap (lines 74-81). -/
def connStep (attempt : Nat → Option Conn) (s : ConnState) : ConnState :=
  match s.result with
  | some _ => s
  | none =>
    match attempt s.attemptIdx with
    | some c => { s with result := some c }
    | none =>
      { s with
        attemptIdx := s.attemptIdx + 1,
        errorsLogged := s.errorsLogged + 1,
        sleeps := s.sleeps ++ [s.retry_delay],
        retry_delay := next_retry_delay s.retry_delay }

/-- The loop of `create_rabbitmq_connection` run for `fuel` iterations. -/
def connRun (attempt : Nat → Option Conn) : Nat → ConnState
  | 0 => connInit
  | n + 1 => connStep attempt (connRun attempt n)

/-! ## JSON values and serialization

Messages are JSON objects; fields are an association list in source order.
`jget` embeds Python's `dict.get` (returning `None` when the key is
absent); `dumps` embeds `json.dumps` on such an object. -/

/-- A JSON value as used by the two services: strings and integers. -/
inductive JValue where
  | str (s : String)
  | int (n : Int)
deriving Repr, DecidableEq

/-- A decoded JSON object: fields in source order. -/
abbrev JsonMsg := List (String × JValue)

/-- Python `message.get(key)`: the first binding of `key`, or `None`. -/
def jget (m : JsonMsg) (k : String) : Option JValue :=
  (m.find? (fun p => p.1 == k)).map Prod.snd

/-- Render one JSON string literal. -/
def jstr (s : String) : String := "\"" ++ s ++ "\""

/-- Render one JSON value. -/
def jvalDump : JValue → String
  | .str s => jstr s
  | .int n => toString n

/-- Embeds `json.dumps` on an object with string and integer fields. -/
def dumps (m : JsonMsg) : String :=
  "\x7b" ++ String.intercalate ", "
    (m.map (fun p => jstr p.1 ++ ": " ++ jvalDump p.2)) ++ "\x7d"

/-! ## Processor: `process_message` (nfl_processor/main.py, lines 83-116)

The callback body is `try: decode; log; placeholder processing; ack`
with `except json.JSONDecodeError: nack(requeue=False)` and
`except Exception: nack(requeue=False)`.  Every fallible call is a
parameter giving its outcome.  `json.loads(body.decode('utf-8'))` on
line 89 yields either a decoded object, a `json.JSONDecodeError`
(malformed JSON), or any other exception (e.g. `UnicodeDecodeError` from
`body.decode('utf-8')`), which only the generic `except Exception` arm
catches.  Whether the status-gated block after the receipt log (lines
94-103) raises is the parameter `handler_raises` (in the source it never
does; `source_handler_raises` fixes that).  Crucially, `ch.basic_ack`
on line 106 sits inside the `try`: when the ack call itself raises
(parameter `ack_raises`), control falls into `except Exception` (line
113), which issues `ch.basic_nack` on the same delivery tag (line 116) —
a second settlement attempt.  A `basic_nack` issued inside an `except`
arm can raise in turn (parameter `nack_raises`); that exception is caught
by no further arm and escapes the callback (`uncaught`), leaving the tag
with no successful settlement. -/

/-- Outcome of `json.loads(body.decode('utf-8'))` (line 89). -/
inductive DecodeOutcome where
  | ok (msg : JsonMsg)
  | jsonError
  | otherError
deriving Repr, DecidableEq

/-- A settlement operation issued on the channel for a delivery tag. -/
inductive ChanAction where
  | basic_ack (delivery_tag : Nat)
  | basic_nack (delivery_tag : Nat) (requeue : Bool)
deriving Repr, DecidableEq

/-- Log line of the status-gated branch (lines 96-103): emitted only when
`message.get('status') == 'placeholder_data'` (line 96). -/
def status_log (msg : JsonMsg) : List String :=
  if jget msg "status" = some (.str "placeholder_data")
  then ["Processing completed"] else []

/-- Log lines of a fully successful processing block (lines 92-103): the
receipt log of line 92, then the status-gated result log. -/
def placeholder_processing_logs (msg : JsonMsg) : List String :=
  ["Message received: " ++ dumps msg] ++ status_log msg

/-- The status-gated block of the source never raises: it only logs and
builds a literal dict (lines 94-103). -/
def source_handler_raises : JsonMsg → Bool := fun _ => false

/-- Result of one `process_message` invocation: the settlement calls
attempted on the channel in order, whether an exception escaped the
callback (a `basic_nack` inside an `except` arm raised), and the log
lines emitted. -/
structure ProcResult where
  actions : List ChanAction
  uncaught : Bool
  logs : List String
deriving Repr, DecidableEq

/-- Embeds `process_message` (lines 83-116).  `handler_raises msg` gives
whether the status-gated block (lines 94-103) raises on `msg` (source
instantiation: `source_handler_raises`); `ack_raises` whether the
`ch.basic_ack` call on line 106 raises, in which case the generic
`except Exception` arm (line 113) issues `ch.basic_nack` on the same tag
(line 116); `nack_raises` whether the `basic_nack` call executed in an
`except` arm (line 111 or 116) raises, in which case the exception
escapes the callback. -/
def process_message (delivery_tag : Nat) (decoded : DecodeOutcome)
    (handler_raises : JsonMsg → Bool) (ack_raises nack_raises : Bool) :
    ProcResult :=
  match decoded with
  | .ok msg =>
    if handler_raises msg then
      { actions := [.basic_nack delivery_tag false],
        uncaught := nack_raises,
        logs := ["Message received: " ++ dumps msg,
                 "Error processing message"] }
    else if ack_raises then
      { actions := [.basic_ack delivery_tag,
                    .basic_nack delivery_tag false],
        uncaught := nack_raises,
        logs := placeholder_processing_logs msg
                  ++ ["Error processing message"] }
    else
      { actions := [.basic_ack delivery_tag],
        uncaught := false,
        logs := placeholder_processing_logs msg }
  | .jsonError =>
    { actions := [.basic_nack delivery_tag false],
      uncaught := nack_raises,
      logs := ["Failed to parse JSON message"] }
  | .otherError =>
    { actions := [.basic_nack delivery_tag false],
      uncaught := nack_raises,
      logs := ["Error processing message"] }

/-! ## Publisher: `publish_message` (nfl_ingestor/main.py, lines 83-103)

`try: queue_declare(queue, durable=True); basic_publish(...)` with
`except Exception: log; raise`.  The outcomes of the two broker calls are
parameters; the result records the broker operations attempted, whether
the exception was re-raised to the caller (`Except.error`), and whether an
error was logged first. -/

/-- A broker operation attempted by the publisher. -/
inductive BrokerOp where
  | queue_declare (queue : String) (durable : Bool)
  | basic_publish (exchange routing_key body : String) (delivery_mode : Nat)
deriving Repr, DecidableEq

/-- Whether `publish_message` returned normally or re-raised an
exception to its caller. -/
inductive PubOutcome where
  | returned
  | raised
deriving Repr, DecidableEq

/-- Result of one `publish_message` call. -/
structure PubResult where
  ops : List BrokerOp
  outcome : PubOutcome
  errorLogged : Bool
deriving Repr, DecidableEq

/-- Embeds `publish_message` (lines 83-103).  `declare_ok` and
`publish_ok` give the outcomes of `channel.queue_declare` (line 89) and
`channel.basic_publish` (lines 92-97); on either exception the handler
logs and re-raises (lines 101-103). -/
def publish_message (queue_name : String) (message : JsonMsg)
    (declare_ok publish_ok : Bool) : PubResult :=
  if !declare_ok then
    { ops := [.queue_declare queue_name true],
      outcome := .raised, errorLogged := true }
  else if !publish_ok then
    { ops := [.queue_declare queue_name true,
              .basic_publish "" queue_name (dumps message) 2],
      outcome := .raised, errorLogged := true }
  else
    { ops := [.queue_declare queue_name true,
              .basic_publish "" queue_name (dumps message) 2],
      outcome := .returned, errorLogged := false }

/-! ## Ingestor message construction (nfl_ingestor/main.py, lines 123-137)

The publishing loop builds `test_message` from `message_counter`
(initialised to 1, line 118, incremented after each publish, line 137)
and `datetime.utcnow().isoformat() + "Z"`.  The ISO-8601 text produced by
the datetime library at iteration `k` is an oracle `now : Nat -> String`. -/

/-- Python `f"test_\x7bmessage_counter:03d\x7d"`: decimal, zero-padded to
width 3. -/
def pad3 (n : Nat) : String :=
  let s := toString n
  if 3 ≤ s.length then s
  else String.mk (List.replicate (3 - s.length) '0') ++ s

/-- The dict literal of lines 125-132 for a given counter value and
library timestamp text. -/
def test_message (message_counter : Nat) (now : String) : JsonMsg :=
  [("game_id", .str ("test_" ++ pad3 message_counter)),
   ("timestamp", .str (now ++ "Z")),
   ("home_team", .str "Test Home Team"),
   ("away_team", .str "Test Away Team"),
   ("status", .str "placeholder_data"),
   ("message_number", .int message_counter)]

/-- The messages the ingestor loop has handed to `publish_message` after
`n` iterations (lines 123-138): counter values 1, 2, ... -/
def ingestor_messages (now : Nat → String) (n : Nat) : List JsonMsg :=
  (List.range n).map (fun k => test_message (k + 1) (now k))

/-! ## The two `main` functions as action traces

Each `main` is `setup; try: loop except KeyboardInterrupt: ...
except Exception: ... finally: try: connection.close() except: pass`.
How the `try` body ends is a parameter: an interrupt signal, an
unexpected exception, or (vacuously for these infinite loops) normal
completion; the number of loop iterations completed before that point is
a parameter too. -/

/-- How the `try` body of a `main` function ends. -/
inductive BodyOutcome where
  | normal
  | keyboardInterrupt
  | unexpectedError
deriving Repr, DecidableEq

/-- An observable action of either `main` (broker side effects only;
log lines are not recorded here). -/
inductive MainAction where
  | publish (message : JsonMsg)
  | queue_declare (queue : String) (durable : Bool)
  | basic_consume (queue : String)
  | basic_qos (prefetch_count : Nat)
  | start_consuming
  | deliver_dispatched
  | stop_consuming
  | close_connection
deriving Repr, DecidableEq

/-- Embeds the ingestor `main` (lines 105-150): after connecting, loop
publishing `test_message` (lines 123-138) until the body ends with
`outcome` after `n` iterations; both handlers only log; the `finally`
closes the connection once, swallowing any close error (lines 144-150). -/
def ingestor_main (now : Nat → String) (n : Nat) (outcome : BodyOutcome) :
    List MainAction :=
  ((ingestor_messages now n).map MainAction.publish) ++
    (match outcome with
     | .normal => []
     | .keyboardInterrupt => []
     | .unexpectedError => []) ++
    [.close_connection]

/-- Embeds the processor `main` (lines 118-159): declare the queue
durable (line 132), register the consumer (lines 135-138), set QoS to
prefetch 1 (line 141), start consuming; `delivered` deliveries are
dispatched before the body ends with `outcome`; the `KeyboardInterrupt`
handler calls `channel.stop_consuming()` (line 150); the `finally`
closes the connection once, swallowing any close error (lines 153-159). -/
def processor_main (queue_name : String) (delivered : Nat)
    (outcome : BodyOutcome) : List MainAction :=
  [.queue_declare queue_name true, .basic_consume queue_name,
   .basic_qos 1, .start_consuming] ++
    List.replicate delivered .deliver_dispatched ++
    (match outcome with
     | .normal => []
     | .keyboardInterrupt => [.stop_consuming]
     | .unexpectedError => []) ++
    [.close_connection]

/-! ## Broker queue declaration -/

/-- Properties a queue is declared with: both call sites pass
`durable=True` and nothing else. -/
structure QueueProps where
  durable : Bool
deriving Repr, DecidableEq

/-- Broker state: the declared queues and their properties. -/
abbrev BrokerState := List (String × QueueProps)

/-- Modelled from the spec: the broker (an external system, not in this
repository) handles `queue_declare` with declare-if-absent semantics —
"declared idempotently on every connect (declare-if-absent semantics, no
error if already exists with matching properties)"; a redeclaration with
different properties fails. -/
def broker_queue_declare (b : BrokerState) (name : String)
    (p : QueueProps) : Except Unit BrokerState :=
  match b.find? (fun q => q.1 == name) with
  | none => .ok ((name, p) :: b)
  | some q => if q.2 = p then .ok b else .error ()

/-- The declare properties the ingestor passes
(`durable=True`, nfl_ingestor/main.py line 89). -/
def ingestor_declare_props : QueueProps := { durable := true }

/-- The declare properties the processor passes
(`durable=True`, nfl_processor/main.py line 132). -/
def processor_declare_props : QueueProps := { durable := true }

/-- Test for a publish attempt among broker operations. -/
def isPublishOp : BrokerOp → Bool
  | .basic_publish _ _ _ _ => true
  | _ => false

/-- Test for the connection-close action. -/
def isClose : MainAction → Bool
  | .close_connection => true
  | _ => false

/-- Test for an action that publishes or consumes. -/
def isPublishOrConsume : MainAction → Bool
  | .publish _ => true
  | .basic_consume _ => true
  | .start_consuming => true
  | .deliver_dispatched => true
  | _ => false

/-- The field names of a JSON object in source order. -/
def msg_keys (m : JsonMsg) : List String := m.map Prod.fst

/-! ## Lemmas about the connection retry loop -/

theorem retry_delay_after_le_max (n : Nat) : retry_delay_after n ≤ 60 := by
  cases n with
  | zero => decide
  | succ m =>
    simp only [retry_delay_after, next_retry_delay, max_delay]
    exact min_le_right _ _

theorem retry_delay_after_mono (n : Nat) :
    retry_delay_after n ≤ retry_delay_after (n + 1) := by
  have h := retry_delay_after_le_max n
  simp only [retry_delay_after, next_retry_delay, max_delay]
  exact le_min (by omega) h

theorem connRun_delay_invariant (attempt : Nat → Option Conn) (fuel : Nat) :
    (connRun attempt fuel).retry_delay
        = retry_delay_after (connRun attempt fuel).errorsLogged
    ∧ (connRun attempt fuel).sleeps
        = (List.range (connRun attempt fuel).errorsLogged).map
            retry_delay_after := by
  induction fuel with
  | zero => simp [connRun, connInit, retry_delay_after]
  | succ n ih =>
    simp only [connRun, connStep]
    rcases h : (connRun attempt n).result with _ | c
    · rcases h2 : attempt (connRun attempt n).attemptIdx with _ | c
      · simp only []
        refine ⟨?_, ?_⟩
        · simp [retry_delay_after, ih.1]
        · simp [List.range_succ, ih.1, ih.2]
      · simpa using ih
    · simpa using ih

theorem connRun_none_all_failed (attempt : Nat → Option Conn) (fuel : Nat) :
    (connRun attempt fuel).result = none →
      (connRun attempt fuel).attemptIdx = fuel
      ∧ (connRun attempt fuel).errorsLogged = fuel
      ∧ ∀ j, j < fuel → attempt j = none := by
  induction fuel with
  | zero =>
    intro _
    refine ⟨rfl, rfl, ?_⟩
    intro j hj
    omega
  | succ n ih =>
    intro hnone
    rcases h : (connRun attempt n).result with _ | c
    · rcases h2 : attempt (connRun attempt n).attemptIdx with _ | c
      · obtain ⟨hidx, herr, hall⟩ := ih h
        simp only [connRun, connStep, h, h2]
        refine ⟨by simp [hidx], by simp [herr], ?_⟩
        intro j hj
        rcases Nat.lt_succ_iff_lt_or_eq.mp hj with hj' | hj'
        · exact hall j hj'
        · rw [hj', ← hidx]
          exact h2
      · exfalso
        simp only [connRun, connStep, h, h2] at hnone
        exact Option.noConfusion hnone
    · exfalso
      simp only [connRun, connStep, h] at hnone
      exact Option.noConfusion hnone

theorem connRun_some_first_success (attempt : Nat → Option Conn)
    (fuel : Nat) (c : Conn) :
    (connRun attempt fuel).result = some c →
      ∃ i, i < fuel ∧ attempt i = some c ∧ ∀ j, j < i → attempt j = none := by
  induction fuel with
  | zero =>
    intro h
    exact absurd h (by simp [connRun, connInit])
  | succ n ih =>
    intro hsome
    rcases h : (connRun attempt n).result with _ | c0
    · rcases h2 : attempt (connRun attempt n).attemptIdx with _ | c0
      · exfalso
        simp only [connRun, connStep, h, h2] at hsome
        exact Option.noConfusion hsome
      · obtain ⟨hidx, _, hall⟩ := connRun_none_all_failed attempt n h
        simp only [connRun, connStep, h, h2] at hsome
        refine ⟨n, Nat.lt_succ_self n, ?_, hall⟩
        rw [← hidx, h2]
        simpa using hsome
    · simp only [connRun, connStep, h] at hsome
      obtain ⟨i, hi, hai, hall⟩ := ih (by rw [h]; simpa using hsome)
      exact ⟨i, Nat.lt_succ_of_lt hi, hai, hall⟩

/-- C1: in `create_rabbitmq_connection` the slept delays of one call are
exactly `retry_delay_after 0, retry_delay_after 1, ...`, where the delay
starts at 1 second, after every failed attempt becomes
`min(2 * previous, 60)`, never exceeds 60 seconds, and never decreases
within a single call. -/
theorem backoff_monotone_capped (attempt : Nat → Option Conn) (fuel : Nat) :
    (connRun attempt fuel).sleeps
        = (List.range (connRun attempt fuel).errorsLogged).map
            retry_delay_after
    ∧ retry_delay_after 0 = 1
    ∧ (∀ i, retry_delay_after (i + 1) = min (2 * retry_delay_after i) 60)
    ∧ (∀ i, retry_delay_after i ≤ 60)
    ∧ (∀ i, retry_delay_after i ≤ retry_delay_after (i + 1)) := by
  refine ⟨(connRun_delay_invariant attempt fuel).2, rfl, ?_, ?_, ?_⟩
  · intro i
    simp only [retry_delay_after, next_retry_delay, max_delay]
    ring_nf
  · exact retry_delay_after_le_max
  · exact retry_delay_after_mono

/-- C2: `create_rabbitmq_connection` returns only upon a successfully
established connection: when every attempt fails the loop is still
retrying after any number of iterations, each failure having been logged
(no maximum attempt count, never fatal); and any returned connection is
the one produced by the first successful attempt. -/
theorem connect_returns_only_success (attempt : Nat → Option Conn)
    (fuel : Nat) :
    ((∀ i, attempt i = none) →
        (connRun attempt fuel).result = none
        ∧ (connRun attempt fuel).errorsLogged = fuel)
    ∧ (∀ c, (connRun attempt fuel).result = some c →
        ∃ i, i < fuel ∧ attempt i = some c
          ∧ ∀ j, j < i → attempt j = none) := by
  constructor
  · intro hall
    have hnone : (connRun attempt fuel).result = none := by
      rcases h : (connRun attempt fuel).result with _ | c
      · rfl
      · obtain ⟨i, _, hai, _⟩ := connRun_some_first_success attempt fuel c h
        rw [hall i] at hai
        exact absurd hai (by simp)
    exact ⟨hnone, (connRun_none_all_failed attempt fuel hnone).2.1⟩
  · exact connRun_some_first_success attempt fuel

/-- Witness for C2 at a concrete input: with every attempt failing, after
4 iterations the call has not returned and has logged 4 errors. -/
theorem connect_returns_only_success_witness :
    (connRun (fun _ => none) 4).result = none
    ∧ (connRun (fun _ => none) 4).errorsLogged = 4 :=
  (connect_returns_only_success (fun _ => none) 4).1 (fun _ => rfl)

/-! ## Claims about `process_message` -/

/-- C3: the code violates exactly-once settlement.  Evaluating
`process_message` at the failing input — a delivery with tag 7 whose
body decodes and whose status-gated block succeeds, but whose
`ch.basic_ack` call (line 106) raises — shows the tag settled twice:
the ack attempt is followed by a `basic_nack` of the same tag issued by
the generic `except` arm (lines 113-116), so the actions are neither one
ack alone nor one nack alone. -/
theorem double_settle_when_ack_raises :
    (process_message 7 (.ok [("status", JValue.str "placeholder_data")])
        source_handler_raises true false).actions
      = [ChanAction.basic_ack 7, ChanAction.basic_nack 7 false]
    ∧ (process_message 7 (.ok [("status", JValue.str "placeholder_data")])
        source_handler_raises true false).actions.length = 2 :=
  ⟨rfl, rfl⟩

/-- C4 counterexample: decoding and handling of this delivery (tag 3)
succeed, yet because the `basic_ack` call raises, the issued settlement
is not exactly the acknowledgment — a rejection of the same tag
follows — refuting the claim that acknowledgment alone occurs if and
only if decoding and handling succeed. -/
theorem successful_handling_still_nacked :
    (process_message 3 (.ok []) source_handler_raises true false).actions
        ≠ [ChanAction.basic_ack 3]
    ∧ (process_message 3 (.ok []) source_handler_raises true false).actions
        = [ChanAction.basic_ack 3, ChanAction.basic_nack 3 false] := by
  constructor
  · decide
  · rfl

/-- C4 (amended): `process_message` issues an acknowledgment exactly when
decoding and the status-gated block both succeed, and when the
acknowledgment call itself does not raise, that acknowledgment is the
only settlement issued; a JSON decode failure, any other decode
exception, and any processing exception each lead to exactly one
rejection with `requeue=False`; if the acknowledgment call raises, the
delivery is additionally rejected without requeue; and no issued
rejection ever requeues, so a failed message is never requeued. -/
theorem ack_iff_decode_and_handle (delivery_tag : Nat)
    (decoded : DecodeOutcome) (handler_raises : JsonMsg → Bool)
    (ack_raises nack_raises : Bool) :
    (ChanAction.basic_ack delivery_tag
        ∈ (process_message delivery_tag decoded handler_raises
            ack_raises nack_raises).actions
      ↔ ∃ msg, decoded = .ok msg ∧ handler_raises msg = false)
    ∧ (ack_raises = false →
        ((process_message delivery_tag decoded handler_raises
            ack_raises nack_raises).actions
            = [ChanAction.basic_ack delivery_tag]
          ↔ ∃ msg, decoded = .ok msg ∧ handler_raises msg = false))
    ∧ (decoded = .jsonError →
        (process_message delivery_tag decoded handler_raises
            ack_raises nack_raises).actions
          = [ChanAction.basic_nack delivery_tag false])
    ∧ (decoded = .otherError →
        (process_message delivery_tag decoded handler_raises
            ack_raises nack_raises).actions
          = [ChanAction.basic_nack delivery_tag false])
    ∧ (∀ msg, decoded = .ok msg → handler_raises msg = true →
        (process_message delivery_tag decoded handler_raises
            ack_raises nack_raises).actions
          = [ChanAction.basic_nack delivery_tag false])
    ∧ (∀ msg, decoded = .ok msg → handler_raises msg = false →
        ack_raises = true →
        (process_message delivery_tag decoded handler_raises
            ack_raises nack_raises).actions
          = [ChanAction.basic_ack delivery_tag,
             ChanAction.basic_nack delivery_tag false])
    ∧ (∀ t r, ChanAction.basic_nack t r
          ∈ (process_message delivery_tag decoded handler_raises
              ack_raises nack_raises).actions →
        r = false) := by
  refine ⟨?_, ?_, ?_, ?_, ?_, ?_, ?_⟩
  · constructor
    · intro h
      cases decoded with
      | ok msg =>
        cases hh : handler_raises msg
        · exact ⟨msg, rfl, hh⟩
        · simp [process_message, hh] at h
      | jsonError => simp [process_message] at h
      | otherError => simp [process_message] at h
    · rintro ⟨msg, rfl, hh⟩
      cases ha : ack_raises <;> simp [process_message, hh, ha]
  · rintro rfl
    constructor
    · intro h
      cases decoded with
      | ok msg =>
        cases hh : handler_raises msg
        · exact ⟨msg, rfl, hh⟩
        · simp [process_message, hh] at h
      | jsonError => simp [process_message] at h
      | otherError => simp [process_message] at h
    · rintro ⟨msg, rfl, hh⟩
      simp [process_message, hh]
  · rintro rfl
    rfl
  · rintro rfl
    rfl
  · rintro msg rfl hh
    simp [process_message, hh]
  · rintro msg rfl hh rfl
    simp [process_message, hh]
  · intro t r hmem
    cases decoded with
    | ok msg =>
      cases hh : handler_raises msg
      · cases ha : ack_raises
        · simp [process_message, hh, ha] at hmem
        · simp [process_message, hh, ha] at hmem
          exact hmem.2
      · simp [process_message, hh] at hmem
        exact hmem.2
    | jsonError =>
      simp [process_message] at hmem
      exact hmem.2
    | otherError =>
      simp [process_message] at hmem
      exact hmem.2

/-- Witness for C4 at a concrete input: a malformed-JSON body with tag 5,
with all channel calls succeeding, is rejected once without requeue. -/
theorem ack_iff_decode_and_handle_witness :
    (process_message 5 DecodeOutcome.jsonError source_handler_raises
        false false).actions
      = [ChanAction.basic_nack 5 false] :=
  (ack_iff_decode_and_handle 5 DecodeOutcome.jsonError
    source_handler_raises false false).2.2.1 rfl

/-- C10: with the source's status-gated block (which never raises), the
settlement actions issued for a decoded delivery do not depend on the
message's fields at all — any two decoded messages yield identical
actions — the first action is always the acknowledgment of the tag, and
when the acknowledgment call itself succeeds that acknowledgment is the
only settlement; the `status == 'placeholder_data'` test gates only
whether the processing-result log line is emitted. -/
theorem ack_regardless_of_status (delivery_tag : Nat) (msg msg2 : JsonMsg)
    (ack_raises nack_raises : Bool) :
    (process_message delivery_tag (.ok msg) source_handler_raises
        ack_raises nack_raises).actions
      = (process_message delivery_tag (.ok msg2) source_handler_raises
          ack_raises nack_raises).actions
    ∧ (process_message delivery_tag (.ok msg) source_handler_raises
        ack_raises nack_raises).actions.head?
      = some (ChanAction.basic_ack delivery_tag)
    ∧ (ack_raises = false →
        (process_message delivery_tag (.ok msg) source_handler_raises
            ack_raises nack_raises).actions
          = [ChanAction.basic_ack delivery_tag])
    ∧ (ack_raises = false →
        (process_message delivery_tag (.ok msg) source_handler_raises
            ack_raises nack_raises).logs
          = placeholder_processing_logs msg)
    ∧ (jget msg "status" ≠ some (.str "placeholder_data") →
        placeholder_processing_logs msg
          = ["Message received: " ++ dumps msg])
    ∧ (jget msg "status" = some (.str "placeholder_data") →
        placeholder_processing_logs msg
          = ["Message received: " ++ dumps msg, "Processing completed"]) := by
  refine ⟨?_, ?_, ?_, ?_, ?_, ?_⟩
  · cases ack_raises <;> rfl
  · cases ack_raises <;> rfl
  · rintro rfl
    rfl
  · rintro rfl
    rfl
  · intro h
    simp [placeholder_processing_logs, status_log, h]
  · intro h
    simp [placeholder_processing_logs, status_log, h]

/-- Witness for C10 at a concrete input: a message whose `status` is not
`placeholder_data` is still acknowledged as the only settlement when the
ack call succeeds, and only the receipt line is logged. -/
theorem ack_regardless_of_status_witness :
    (process_message 1 (.ok [("status", JValue.str "weird")])
        source_handler_raises false false).actions
      = [ChanAction.basic_ack 1]
    ∧ placeholder_processing_logs [("status", JValue.str "weird")]
        = ["Message received: " ++ dumps [("status", JValue.str "weird")]] :=
  ⟨(ack_regardless_of_status 1 [("status", JValue.str "weird")] []
      false false).2.2.1 rfl,
   (ack_regardless_of_status 1 [("status", JValue.str "weird")] []
      false false).2.2.2.2.1 (by decide)⟩

/-! ## Claims about `publish_message` -/

/-- C6: `publish_message` returns normally exactly when both broker calls
succeed; on any failure it logs an error and re-raises to the caller; and
it never attempts the publish more than once (no internal retry). -/
theorem publish_error_uncaught_no_retry (queue_name : String)
    (message : JsonMsg) (declare_ok publish_ok : Bool) :
    ((publish_message queue_name message declare_ok publish_ok).outcome
        = .returned ↔ declare_ok = true ∧ publish_ok = true)
    ∧ ((publish_message queue_name message declare_ok publish_ok).outcome
        = .raised →
      (publish_message queue_name message declare_ok publish_ok).errorLogged
        = true)
    ∧ ((publish_message queue_name message declare_ok publish_ok).ops.countP
        isPublishOp ≤ 1) := by
  cases declare_ok <;> cases publish_ok <;>
    simp [publish_message, isPublishOp, List.countP_cons]

/-- Witness for C6 at a concrete input: when `basic_publish` raises, the
call logs an error (and the outcome is the re-raised exception). -/
theorem publish_error_uncaught_no_retry_witness :
    (publish_message "game_events" [] true false).errorLogged = true :=
  (publish_error_uncaught_no_retry "game_events" [] true false).2.1 rfl

/-! ## Claim about queue declaration and persistence -/

/-- C7: redeclaring a queue with identical properties succeeds a second
time (and leaves the broker unchanged); both roles declare with the same
properties, namely `durable=True`; and every publish the publisher issues
carries `delivery_mode = 2` (persistent). -/
theorem durable_declare_and_persistent_publish :
    (∀ (b b2 : BrokerState) (name : String) (p : QueueProps),
        broker_queue_declare b name p = .ok b2 →
        broker_queue_declare b2 name p = .ok b2)
    ∧ ingestor_declare_props = processor_declare_props
    ∧ ingestor_declare_props.durable = true
    ∧ (∀ q m dok pok, (publish_message q m dok pok).ops.head?
        = some (.queue_declare q true))
    ∧ (∀ q d o, MainAction.queue_declare q true ∈ processor_main q d o)
    ∧ (∀ q m dok pok ex rk body dm,
        BrokerOp.basic_publish ex rk body dm
            ∈ (publish_message q m dok pok).ops →
        dm = 2) := by
  refine ⟨?_, rfl, rfl, ?_, ?_, ?_⟩
  · intro b b2 name p h
    rcases hf : b.find? (fun q => q.1 == name) with _ | q
    · simp only [broker_queue_declare, hf] at h
      cases h
      simp [broker_queue_declare, List.find?]
    · simp only [broker_queue_declare, hf] at h
      by_cases hp : q.2 = p
      · rw [if_pos hp] at h
        cases h
        simp only [broker_queue_declare, hf]
        rw [if_pos hp]
      · rw [if_neg hp] at h
        exact absurd h (by simp)
  · intro q m dok pok
    cases dok <;> cases pok <;> simp [publish_message]
  · intro q d o
    simp [processor_main]
  · intro q m dok pok ex rk body dm hmem
    cases dok <;> cases pok <;> simp [publish_message] at hmem <;> omega

/-- Witness for C7 at a concrete input: declaring `game_events` durable on
an empty broker and then declaring it again with identical properties
succeeds both times, the second leaving the broker unchanged. -/
theorem durable_declare_and_persistent_publish_witness :
    broker_queue_declare [("game_events", ingestor_declare_props)]
        "game_events" ingestor_declare_props
      = .ok [("game_events", ingestor_declare_props)] :=
  durable_declare_and_persistent_publish.1 [] _ "game_events"
    ingestor_declare_props rfl

/-! ## Claim about QoS ordering (processor `main`, lines 130-146)

The source issues `basic_consume` (lines 135-138) and only afterwards
`basic_qos(prefetch_count=1)` (line 141): the consumer is registered with
the broker — from which point the broker may dispatch deliveries to it —
before any prefetch limit is in place. -/

/-- C5 counter-evidence: in the processor's startup trace the consumer
registration (`basic_consume`) is issued strictly before the QoS call
(`basic_qos 1`): positions 1 and 2 of the trace, for any queue name,
delivery count and body outcome. -/
theorem consume_registered_before_qos :
    ((processor_main "game_events" 0 BodyOutcome.keyboardInterrupt).take 3
      = [MainAction.queue_declare "game_events" true,
         MainAction.basic_consume "game_events",
         MainAction.basic_qos 1])
    ∧ ∀ (q : String) (d : Nat) (o : BodyOutcome),
        (processor_main q d o).take 3
          = [MainAction.queue_declare q true,
             MainAction.basic_consume q,
             MainAction.basic_qos 1] := by
  constructor
  · rfl
  · intro q d o
    rfl

/-! ## Claim about graceful shutdown (both `main` functions) -/

theorem countP_replicate_deliver (d : Nat) :
    (List.replicate d MainAction.deliver_dispatched).countP isClose = 0 := by
  induction d with
  | zero => rfl
  | succ n ih => simp [List.replicate, List.countP_cons, isClose, ih]

/-- C8: on every exit path of either `main` — normal completion, an
interrupt signal, or an unexpected error — the trace splits into the loop
part and a post-loop part in which the connection is closed exactly once,
as the very last action, with no publish or consume action occurring
after the loop ends; and the loop part performs no close. -/
theorem graceful_shutdown_close_once (now : Nat → String) (n : Nat)
    (outcome : BodyOutcome) (q : String) (d : Nat)
    (outcome2 : BodyOutcome) :
    (∃ loopActs post,
        ingestor_main now n outcome = loopActs ++ post
        ∧ loopActs = (ingestor_messages now n).map MainAction.publish
        ∧ post.countP isClose = 1
        ∧ post.countP isPublishOrConsume = 0
        ∧ loopActs.countP isClose = 0
        ∧ post.getLast? = some .close_connection)
    ∧ (∃ loopActs post,
        processor_main q d outcome2 = loopActs ++ post
        ∧ post.countP isClose = 1
        ∧ post.countP isPublishOrConsume = 0
        ∧ loopActs.countP isClose = 0
        ∧ post.getLast? = some .close_connection) := by
  constructor
  · refine ⟨(ingestor_messages now n).map MainAction.publish,
      (match outcome with
       | .normal => []
       | .keyboardInterrupt => []
       | .unexpectedError => []) ++ [.close_connection],
      ?_, rfl, ?_, ?_, ?_, ?_⟩
    · simp [ingestor_main]
    · cases outcome <;> rfl
    · cases outcome <;> rfl
    · simp [List.countP_map, Function.comp, isClose]
    · cases outcome <;> rfl
  · refine ⟨[.queue_declare q true, .basic_consume q, .basic_qos 1,
        .start_consuming] ++ List.replicate d .deliver_dispatched,
      (match outcome2 with
       | .normal => []
       | .keyboardInterrupt => [.stop_consuming]
       | .unexpectedError => []) ++ [.close_connection],
      ?_, ?_, ?_, ?_, ?_⟩
    · simp [processor_main]
    · cases outcome2 <;> rfl
    · cases outcome2 <;> rfl
    · simp [List.countP_append, List.countP_cons, isClose,
        countP_replicate_deliver]
    · cases outcome2 <;> rfl

/-! ## Claim about the published message envelope -/

/-- C9: every message the ingestor's loop publishes is the JSON object
with exactly the fields `game_id`, `timestamp`, `home_team`, `away_team`,
`status`, `message_number`, in that order; the first five hold strings —
the timestamp being the datetime library's ISO text with `"Z"` appended —
and `message_number` holds the integer counter, which starts at 1. -/
theorem message_envelope (now : Nat → String) (n : Nat)
    (outcome : BodyOutcome) (m : JsonMsg)
    (hm : MainAction.publish m ∈ ingestor_main now n outcome) :
    msg_keys m = ["game_id", "timestamp", "home_team", "away_team",
      "status", "message_number"]
    ∧ (∃ counter : Nat, 1 ≤ counter
        ∧ jget m "game_id" = some (.str ("test_" ++ pad3 counter))
        ∧ jget m "message_number" = some (.int counter)
        ∧ ∃ t : String, jget m "timestamp" = some (.str (t ++ "Z")))
    ∧ jget m "home_team" = some (.str "Test Home Team")
    ∧ jget m "away_team" = some (.str "Test Away Team")
    ∧ jget m "status" = some (.str "placeholder_data") := by
  have hmem : ∃ k, k < n ∧ test_message (k + 1) (now k) = m := by
    cases outcome <;>
    · simp [ingestor_main, ingestor_messages] at hm
      exact hm
  obtain ⟨k, _, rfl⟩ := hmem
  refine ⟨rfl, ⟨k + 1, by omega, ?_, ?_, now k, ?_⟩, ?_, ?_, ?_⟩ <;>
    simp [jget, test_message, List.find?]

/-- Witness for C9 at a concrete input: the first message of a run whose
datetime oracle returns `"T"` carries exactly the six envelope fields. -/
theorem message_envelope_witness :
    msg_keys (test_message 1 "T") = ["game_id", "timestamp", "home_team",
      "away_team", "status", "message_number"] :=
  (message_envelope (fun _ => "T") 1 BodyOutcome.keyboardInterrupt
    (test_message 1 "T")
    (by simp [ingestor_main, ingestor_messages])).1

end NflPipeline
